import Mathlib

/-!
Verification of the FlightME front end core: the legacy form validator,
the airport-code input normalizer, the mock flight-search client, and the
insight panel's data selection, shallowly embedded from the TypeScript and
vanilla-JS sources.

Conventions of the embedding:
* Calendar dates are day numbers (days since an arbitrary epoch).
* JavaScript `Date` timestamps are milliseconds; a parsed date input is
  midnight of its day, so its timestamp is `day * msPerDay`.
* `Math.random()` is an injected function `rand : Nat → Nat` giving the
  value of `Math.floor(Math.random() * 50)` at each day index.
* `toast.error` / `toast.success` calls are recorded in an output list.
* A possible internal failure of the service body is injected as an
  `Except String` value.
-/

namespace FlightME

/-- Milliseconds per day, the unit conversion used by JS `Date` timestamps. -/
def msPerDay : Nat := 86400000

/-- The clock facts the legacy validator reads: the day number of today,
the current time of day in milliseconds (`new Date()` minus local midnight),
and the day number of today plus one calendar year (`setFullYear(y + 1)`). -/
structure ClockEnv where
  todayDay : Nat
  nowTod : Nat
  maxDay : Nat
deriving DecidableEq

/-- JavaScript `trim()` on the field values: drop leading and trailing
whitespace characters. -/
def trimStr (s : String) : String :=
  ⟨((s.data.dropWhile Char.isWhitespace).reverse.dropWhile
    Char.isWhitespace).reverse⟩

/-- Helper `isValidAirportCode` from the legacy script: the regex `[A-Z]{3}` anchored
on both sides, i.e. exactly three characters, each an uppercase ASCII letter. -/
def isValidAirportCode (code : String) : Bool :=
  code.length == 3 && code.data.all (fun c => decide ('A' ≤ c) && decide (c ≤ 'Z'))

/-- The airport-code if/else-if chain of the legacy submit handler: origin
shape, then destination shape, then origin-destination inequality, first
failure winning within this chain. Takes the already-trimmed field values. -/
def airportStep (origin destination : String) : Bool × String :=
  if ¬ (origin.length = 3 ∧ isValidAirportCode origin = true) then
    (false, "Please enter a valid 3-letter origin airport code")
  else if ¬ (destination.length = 3 ∧ isValidAirportCode destination = true) then
    (false, "Please enter a valid 3-letter destination airport code")
  else if origin = destination then
    (false, "Origin and destination cannot be the same")
  else (true, "")

/-- The legacy search-form submit handler from `static/js` (`flightSearchForm`
listener): trims both airport codes, runs the three airport checks as an
if/else-if chain, then runs the date checks in a separate, unconditional
block that overwrites `isValid`/`errorMessage`. Returns the final
`(isValid, errorMessage)` pair. `dateOpt` is `none` when the date field is
empty, otherwise the day number of the parsed date (midnight timestamp). -/
def legacyValidate (env : ClockEnv) (originRaw destinationRaw : String)
    (dateOpt : Option Nat) : Bool × String :=
  let step1 : Bool × String := airportStep (trimStr originRaw) (trimStr destinationRaw)
  match dateOpt with
  | none => (false, "Please select a travel date")
  | some d =>
      let selectedTs := d * msPerDay
      let todayTs := env.todayDay * msPerDay
      let maxTs := env.maxDay * msPerDay + env.nowTod
      let step2 : Bool × String :=
        if selectedTs < todayTs then (false, "Travel date cannot be in the past")
        else step1
      if maxTs < selectedTs then
        (false, "Travel date cannot be more than 1 year in the future")
      else step2

/-- JavaScript `toUpperCase` on the code strings in play: character-wise
uppercasing (no length-changing case mappings arise for airport codes). -/
def toUpperStr (s : String) : String :=
  ⟨s.data.map Char.toUpper⟩

/-- The airport-code input handler from the legacy script: uppercase the
field value, then if it is longer than 3 characters keep only the first 3. -/
def normalizeAirport (s : String) : String :=
  let u := toUpperStr s
  if u.length > 3 then ⟨u.data.take 3⟩ else u

/-- Record `PriceTrendPoint` from `flightService`: one day of the price series. -/
structure PriceTrendPoint where
  date : Nat
  price : Nat
  isLowestPrice : Bool
deriving DecidableEq

/-- The `type` field of a `PriceInsight`. -/
inductive InsightType where
  | good
  | warning
  | info
deriving DecidableEq

/-- Record `PriceInsight` from `flightService`. -/
structure PriceInsight where
  icon : String
  title : String
  description : String
  type : InsightType
deriving DecidableEq

/-- The `data` payload of a successful search: the shape shared by the
service response and the `flightPriceData` query-cache entry. -/
structure PriceData where
  priceTrends : List PriceTrendPoint
  insights : List PriceInsight
deriving DecidableEq

/-- The full mock response object of `FlightService.searchFlights`. -/
structure ServiceResponse where
  success : Bool
  message : String
  data : PriceData
deriving DecidableEq

/-- Record `FlightSearchParams` from `flightService` (dates kept as the raw
strings of the date inputs, exactly as the modern form passes them). -/
structure FlightSearchParams where
  origin : String
  destination : String
  departDate : String
  returnDate : String
  passengers : Nat
deriving DecidableEq

/-- The `basePrice` computation plus random component of
`getMockPriceTrends` at day index `i`: start from 280, subtract 20 when
`i % 3 = 0`, subtract 30 when `i % 7 = 0`, add `Math.floor(Math.random()*50)`. -/
def mockPrice (i : Nat) (r : Nat) : Nat :=
  let b1 : Nat := 280
  let b2 : Nat := if i % 3 = 0 then b1 - 20 else b1
  let b3 : Nat := if i % 7 = 0 then b2 - 30 else b2
  b3 + r

/-- Generator `getMockPriceTrends`: 14 points, dated today through today + 13, priced
by `mockPrice`, with day index 3 flagged as the lowest price. -/
def getMockPriceTrends (today : Nat) (rand : Nat → Nat) : List PriceTrendPoint :=
  (List.range 14).map (fun i =>
    { date := today + i, price := mockPrice i (rand i), isLowestPrice := i == 3 })

/-- Generator `getMockInsights`: the fixed list of three insights the service returns. -/
def getMockInsights : List PriceInsight :=
  [{ icon := "💸", title := "Lowest Price",
     description := "Book on Saturday for the best deal at $260!",
     type := InsightType.good },
   { icon := "⚠️", title := "Price Trend",
     description := "Prices are expected to increase by 15% next week.",
     type := InsightType.warning },
   { icon := "🔮", title := "Future Prediction",
     description := "Wait 3 days for a potential price drop.",
     type := InsightType.info }]

/-- The happy path of `FlightService.searchFlights`: after the simulated
delay it returns the success envelope around the mock data. The `params`
argument is only logged by the source, so it does not influence the result. -/
def searchFlights (today : Nat) (rand : Nat → Nat)
    (params : FlightSearchParams) : ServiceResponse :=
  { success := true
    message := "Flight search successful"
    data := { priceTrends := getMockPriceTrends today rand
              insights := getMockInsights } }

/-- A user-visible toast notification (`toast.error` / `toast.success`). -/
inductive Toast where
  | error (msg : String)
  | success (msg : String)
deriving DecidableEq

/-- The try/catch wrapper of `FlightService.searchFlights` around its body:
on success the body's value is returned and no toast is shown; on an
internal failure one error toast is shown and the failure is re-thrown to
the caller. The body's outcome is injected as `body`. -/
def searchFlightsWith (body : Except String ServiceResponse) :
    Except String ServiceResponse × List Toast :=
  match body with
  | Except.ok r => (Except.ok r, [])
  | Except.error e =>
      (Except.error e, [Toast.error "Failed to search flights. Please try again."])

/-- What one run of the modern form's `handleSearch` leaves behind: the
query-cache write (if any), the toasts shown, and the final value of the
`isSearching` flag. -/
structure SearchOutcome where
  cache : Option PriceData
  toasts : List Toast
  isSearching : Bool
deriving DecidableEq

/-- Handler `handleSearch` from the modern (React) search form: if any of the four
text fields is empty, toast one error and stop; otherwise set `isSearching`,
call the service, on success write `result.data` to the `flightPriceData`
cache key and toast success, on a thrown error only log (no toast), and in
all service paths reset `isSearching` in the `finally` block. The service
body's outcome is injected as `svc`. -/
def handleSearch (origin destination departDate returnDate : String)
    (svc : Except String ServiceResponse) : SearchOutcome :=
  if origin = "" ∨ destination = "" ∨ departDate = "" ∨ returnDate = "" then
    { cache := none
      toasts := [Toast.error "Please fill in all required fields"]
      isSearching := false }
  else
    let callRes := searchFlightsWith svc
    match callRes.1 with
    | Except.ok r =>
        { cache := some r.data
          toasts := callRes.2 ++ [Toast.success "Flight prices analyzed successfully!"]
          isSearching := false }
    | Except.error _ =>
        { cache := none
          toasts := callRes.2
          isSearching := false }

/-- The default insights hard-coded in `PriceAnalysis.tsx`. -/
def defaultInsights : List PriceInsight :=
  [{ icon := "💸", title := "Lowest Price",
     description := "Book on Saturday for the best deal at $260!",
     type := InsightType.good },
   { icon := "⚠️", title := "Price Trend",
     description := "Prices are expected to increase by 15% next week.",
     type := InsightType.warning },
   { icon := "🔮", title := "Future Prediction",
     description := "Wait 3 days for a potential price drop.",
     type := InsightType.info }]

/-- The insight selection of `PriceAnalysis`: `priceData?.insights || fallback`.
In JavaScript an array is truthy even when empty, so the fallback is taken
exactly when `priceData` itself is absent; when price data is present its
`insights` array is used as-is, empty or not. -/
def priceAnalysisInsights (priceData : Option PriceData) : List PriceInsight :=
  match priceData with
  | none => defaultInsights
  | some pd => pd.insights

/-! Helper lemmas shared by the claim theorems. -/

/-- Unfolding of `legacyValidate` on a present date: the future check is the
outermost decision (it runs last and overwrites), then the past check, and
only when both date checks pass does the airport chain's verdict survive. -/
theorem legacyValidate_some (env : ClockEnv) (o d : String) (dd : Nat) :
    legacyValidate env o d (some dd) =
      if env.maxDay * msPerDay + env.nowTod < dd * msPerDay then
        (false, "Travel date cannot be more than 1 year in the future")
      else if dd * msPerDay < env.todayDay * msPerDay then
        (false, "Travel date cannot be in the past")
      else airportStep (trimStr o) (trimStr d) := rfl

/-- Unfolding of `legacyValidate` on a missing date: the date block always
overwrites, whatever the airport chain concluded. -/
theorem legacyValidate_none (env : ClockEnv) (o d : String) :
    legacyValidate env o d none = (false, "Please select a travel date") := rfl

/-- The airport chain accepts valid, distinct, already-trimmed codes. -/
theorem airportStep_ok (o d : String) (ho3 : o.length = 3)
    (hoV : isValidAirportCode o = true) (hd3 : d.length = 3)
    (hdV : isValidAirportCode d = true) (hne : o ≠ d) :
    airportStep o d = (true, "") := by
  unfold airportStep
  rw [if_neg (not_not_intro ⟨ho3, hoV⟩), if_neg (not_not_intro ⟨hd3, hdV⟩), if_neg hne]

/-! Claim theorems. -/

/-- C2: for every valid `SearchParams`, `searchFlights` returns a
`priceTrends` sequence of exactly 14 points whose dates strictly increase
starting at today, and an `insights` sequence of exactly 3 entries each of
whose type is one of good, warning, info. -/
theorem C2_search_round_trip (today : Nat) (rand : Nat → Nat)
    (params : FlightSearchParams) :
    (searchFlights today rand params).data.priceTrends.length = 14 ∧
    List.Chain' (fun p q => p.date < q.date)
      (searchFlights today rand params).data.priceTrends ∧
    ((searchFlights today rand params).data.priceTrends.map
      PriceTrendPoint.date).head? = some today ∧
    (searchFlights today rand params).data.insights.length = 3 ∧
    ∀ ins ∈ (searchFlights today rand params).data.insights,
      ins.type = InsightType.good ∨ ins.type = InsightType.warning ∨
        ins.type = InsightType.info := by
  refine ⟨rfl, ?_, rfl, rfl, ?_⟩
  · simp only [searchFlights, getMockPriceTrends]
    rw [List.chain'_map]
    have h14 : (14 : Nat) = Nat.succ 13 := rfl
    rw [h14, List.chain'_range_succ]
    intro m hm
    simp only
    omega
  · intro ins hins
    simp only [searchFlights, getMockInsights, List.mem_cons,
      List.not_mem_nil, or_false] at hins
    rcases hins with rfl | rfl | rfl
    · exact Or.inl rfl
    · exact Or.inr (Or.inl rfl)
    · exact Or.inr (Or.inr rfl)

/-- C2 witness: the statement instantiated at a concrete clock, random draw
and parameter record. -/
theorem C2_search_round_trip_witness :
    (searchFlights 0 (fun i => 0)
      (FlightSearchParams.mk "JFK" "LAX" "2025-06-01" "2025-06-08" 1)).data.priceTrends.length = 14 :=
  (C2_search_round_trip 0 (fun i => 0)
    (FlightSearchParams.mk "JFK" "LAX" "2025-06-01" "2025-06-08" 1)).1

set_option maxHeartbeats 800000 in
/-- C3: in every mock price-trend series exactly one point is flagged
`isLowestPrice`, namely the one at day index 3, independently of the random
draw; and for the draw that gives day 3 the maximal random component and
every other day the minimal one, the flagged point's price (309) is not the
minimum of the series (230). -/
theorem C3_lowest_flag_fixed (today : Nat) (rand : Nat → Nat) :
    (getMockPriceTrends today rand).map PriceTrendPoint.isLowestPrice =
      (List.range 14).map (fun i => i == 3) ∧
    (getMockPriceTrends today rand).countP (fun p => p.isLowestPrice) = 1 ∧
    ((getMockPriceTrends today (fun i => if i = 3 then 49 else 0)).filter
      (fun p => p.isLowestPrice)).map PriceTrendPoint.price = [309] ∧
    ((getMockPriceTrends today (fun i => if i = 3 then 49 else 0)).map
      PriceTrendPoint.price).min? = some 230 := by
  refine ⟨rfl, rfl, rfl, ?_⟩
  have hlist : (getMockPriceTrends today (fun i => if i = 3 then 49 else 0)).map
      PriceTrendPoint.price =
      [230, 280, 280, 309, 280, 280, 260, 250, 280, 260, 280, 280, 260, 280] := rfl
  rw [hlist]
  decide

/-- C9: with the random component bounded by 50 (the range of
`Math.floor(Math.random() * 50)`), every price in the mock series lies
between 230 and 329 inclusive, hence is non-negative. -/
theorem C9_price_bounds (today : Nat) (rand : Nat → Nat)
    (hr : ∀ i, rand i < 50) :
    ∀ p ∈ getMockPriceTrends today rand, 230 ≤ p.price ∧ p.price ≤ 329 := by
  intro p hp
  simp only [getMockPriceTrends, List.mem_map, List.mem_range] at hp
  obtain ⟨i, hi, rfl⟩ := hp
  have hri := hr i
  simp only [mockPrice]
  split_ifs <;> omega

set_option maxHeartbeats 800000 in
/-- C9 witness: the bounds applied to the first point of a concrete series. -/
theorem C9_price_bounds_witness :
    230 ≤ (PriceTrendPoint.mk 0 230 false).price ∧
      (PriceTrendPoint.mk 0 230 false).price ≤ 329 := by
  refine C9_price_bounds 0 (fun i => 0) ?_ (PriceTrendPoint.mk 0 230 false) ?_
  · intro i
    show (0 : Nat) < 50
    decide
  · decide

/-- C6: when the service body fails, `searchFlights` shows exactly one error
toast and re-raises the same failure; the modern form's `handleSearch`
catches it, shows no further message (the one toast in the outcome is the
service's), writes nothing to the cache, and ends with `isSearching` reset
to false. -/
theorem C6_failure_single_notification (o d dd rd e : String)
    (ho : o ≠ "") (hd : d ≠ "") (hdd : dd ≠ "") (hrd : rd ≠ "") :
    (searchFlightsWith (Except.error e)).1 = Except.error e ∧
    (searchFlightsWith (Except.error e)).2 =
      [Toast.error "Failed to search flights. Please try again."] ∧
    handleSearch o d dd rd (Except.error e) =
      { cache := none
        toasts := [Toast.error "Failed to search flights. Please try again."]
        isSearching := false } := by
  have hcond : ¬ (o = "" ∨ d = "" ∨ dd = "" ∨ rd = "") := by
    push_neg
    exact ⟨ho, hd, hdd, hrd⟩
  refine ⟨rfl, rfl, ?_⟩
  unfold handleSearch
  rw [if_neg hcond]
  rfl

/-- C6 witness: a concrete failing search leaves one error toast, an empty
cache and a cleared searching flag. -/
theorem C6_failure_single_notification_witness :
    handleSearch "JFK" "LAX" "2025-06-01" "2025-06-08" (Except.error "network down") =
      { cache := none
        toasts := [Toast.error "Failed to search flights. Please try again."]
        isSearching := false } :=
  (C6_failure_single_notification "JFK" "LAX" "2025-06-01" "2025-06-08" "network down"
    (by decide) (by decide) (by decide) (by decide)).2.2

/-- C10: the modern form's `handleSearch` checks only non-emptiness of its
four fields: with all fields non-empty, the search runs and its result is
cached whatever the field contents (no shape, inequality or date-range rule
is applied), and with an empty field it stops with the fill-in message. -/
theorem C10_modern_form_only_nonempty (o d dd rd : String) (r : ServiceResponse)
    (ho : o ≠ "") (hd : d ≠ "") (hdd : dd ≠ "") (hrd : rd ≠ "") :
    handleSearch o d dd rd (Except.ok r) =
      { cache := some r.data
        toasts := [Toast.success "Flight prices analyzed successfully!"]
        isSearching := false } ∧
    handleSearch "" d dd rd (Except.ok r) =
      { cache := none
        toasts := [Toast.error "Please fill in all required fields"]
        isSearching := false } := by
  have hcond : ¬ (o = "" ∨ d = "" ∨ dd = "" ∨ rd = "") := by
    push_neg
    exact ⟨ho, hd, hdd, hrd⟩
  constructor
  · unfold handleSearch
    rw [if_neg hcond]
    rfl
  · unfold handleSearch
    rw [if_pos (Or.inl rfl)]

/-- C10 witness: a one-letter origin equal to the destination and a past
depart date are still searched and cached by the modern form. -/
theorem C10_modern_form_only_nonempty_witness :
    handleSearch "A" "A" "2020-01-01" "2020-01-01"
      (Except.ok (ServiceResponse.mk true "Flight search successful"
        (PriceData.mk [] []))) =
      { cache := some (PriceData.mk [] [])
        toasts := [Toast.success "Flight prices analyzed successfully!"]
        isSearching := false } :=
  (C10_modern_form_only_nonempty "A" "A" "2020-01-01" "2020-01-01"
    (ServiceResponse.mk true "Flight search successful" (PriceData.mk [] []))
    (by decide) (by decide) (by decide) (by decide)).1

/-- C7 counterexample: fed a present price-data record whose insights
sequence is empty, the insight panel keeps the empty sequence; it does not
substitute the 3 fixed fallback insights, contrary to the claim. -/
theorem C7_counterexample_empty_kept :
    priceAnalysisInsights (some (PriceData.mk [] [])) = [] ∧
    priceAnalysisInsights (some (PriceData.mk [] [])) ≠ defaultInsights := by
  exact ⟨rfl, by decide⟩

/-- C7 amended: the panel renders the 3 fixed fallback insights (Lowest
Price / good, Price Trend / warning, Future Prediction / info) exactly when
the price data is absent; whenever price data is present, its insights
sequence is rendered as-is, including when it is empty. -/
theorem C7_fallback_only_when_absent :
    priceAnalysisInsights none = defaultInsights ∧
    defaultInsights.length = 3 ∧
    defaultInsights.map (fun ins => (ins.title, ins.type)) =
      [("Lowest Price", InsightType.good), ("Price Trend", InsightType.warning),
        ("Future Prediction", InsightType.info)] ∧
    ∀ pd : PriceData, priceAnalysisInsights (some pd) = pd.insights :=
  ⟨rfl, rfl, rfl, fun pd => rfl⟩

/-- C8: the airport-code normalizer fixes an already-normalized 3-letter
uppercase code, equals uppercase-then-take-3 on every input, and maps
"jfk" to "JFK" and "laxx" to "LAX". -/
theorem C8_normalizer (s t : String) (h3 : t.length = 3)
    (hup : toUpperStr t = t) :
    normalizeAirport t = t ∧
    normalizeAirport s = ⟨(toUpperStr s).data.take 3⟩ ∧
    normalizeAirport "jfk" = "JFK" ∧
    normalizeAirport "laxx" = "LAX" := by
  refine ⟨?_, ?_, by decide, by decide⟩
  · have hl : ¬ ((toUpperStr t).length > 3) := by
      rw [hup, h3]
      omega
    simp only [normalizeAirport]
    rw [if_neg hl, hup]
  · simp only [normalizeAirport]
    by_cases h : (toUpperStr s).length > 3
    · rw [if_pos h]
    · rw [if_neg h]
      have hle : (toUpperStr s).data.length ≤ 3 := by
        have hlen : (toUpperStr s).length ≤ 3 := by omega
        exact hlen
      have htake : (toUpperStr s).data.take 3 = (toUpperStr s).data :=
        List.take_of_length_le hle
      rw [htake]

/-- C8 witness: the normalizer is a no-op on the already-normalized "JFK". -/
theorem C8_normalizer_witness : normalizeAirport "JFK" = "JFK" :=
  (C8_normalizer "jfk" "JFK" rfl (by decide)).1

/-- C1 counterexample: with a malformed origin code and a missing travel
date, the legacy validator's displayed message is the date message, not the
origin message the claim predicts — "first failure wins" does not hold
across the airport and date blocks. -/
theorem C1_counterexample_date_message_shown :
    (legacyValidate (ClockEnv.mk 100 0 465) "AB" "LAX" none).1 = false ∧
    (legacyValidate (ClockEnv.mk 100 0 465) "AB" "LAX" none).2 =
      "Please select a travel date" ∧
    (legacyValidate (ClockEnv.mk 100 0 465) "AB" "LAX" none).2 ≠
      "Please enter a valid 3-letter origin airport code" :=
  ⟨rfl, rfl, by decide⟩

/-- C1 amended: within the airport block the three rules run in order with
first failure winning, but the date block runs afterwards unconditionally
and overwrites the result: a missing date always shows the date-selection
message, a past date always shows the past message, a too-far date always
shows the future message — all regardless of the airport fields — and only
when the date is present and in range does the airport block's verdict
(first failing airport rule, or acceptance) survive. -/
theorem C1_date_block_overrides_airport_block (env : ClockEnv) (o d : String)
    (dd : Nat) (htod : env.nowTod < msPerDay)
    (hmax : env.todayDay ≤ env.maxDay) :
    (legacyValidate env o d none).2 = "Please select a travel date" ∧
    (dd < env.todayDay →
      (legacyValidate env o d (some dd)).2 = "Travel date cannot be in the past") ∧
    (env.maxDay < dd →
      (legacyValidate env o d (some dd)).2 =
        "Travel date cannot be more than 1 year in the future") ∧
    (env.todayDay ≤ dd → dd ≤ env.maxDay →
      legacyValidate env o d (some dd) = airportStep (trimStr o) (trimStr d)) := by
  refine ⟨rfl, ?_, ?_, ?_⟩
  · intro h
    have h1 : ¬ (env.maxDay * msPerDay + env.nowTod < dd * msPerDay) := by
      simp only [msPerDay]
      omega
    have h2 : dd * msPerDay < env.todayDay * msPerDay := by
      simp only [msPerDay]
      omega
    rw [legacyValidate_some, if_neg h1, if_pos h2]
  · intro h
    have h1 : env.maxDay * msPerDay + env.nowTod < dd * msPerDay := by
      simp only [msPerDay] at htod ⊢
      omega
    rw [legacyValidate_some, if_pos h1]
  · intro hlo hhi
    have h1 : ¬ (env.maxDay * msPerDay + env.nowTod < dd * msPerDay) := by
      simp only [msPerDay]
      omega
    have h2 : ¬ (dd * msPerDay < env.todayDay * msPerDay) := by
      simp only [msPerDay]
      omega
    rw [legacyValidate_some, if_neg h1, if_neg h2]

/-- C1 amended witness: at a concrete clock, a bad origin plus a past date
shows the past-date message. -/
theorem C1_date_block_overrides_airport_block_witness :
    (legacyValidate (ClockEnv.mk 100 0 465) "AB" "LAX" (some 99)).2 =
      "Travel date cannot be in the past" :=
  (C1_date_block_overrides_airport_block (ClockEnv.mk 100 0 465) "AB" "LAX" 99
    (by decide) (by decide)).2.1 (by decide)

/-- C4: a travel date strictly before today is rejected whatever the airport
fields hold, with the past-date message (which contains "past"); a travel
date equal to today, together with valid distinct codes, is accepted — the
lower boundary is inclusive. -/
theorem C4_past_rejected_today_accepted (env : ClockEnv) (o d : String)
    (dd : Nat) (htod : env.nowTod < msPerDay)
    (hmax : env.todayDay ≤ env.maxDay) :
    (dd < env.todayDay →
      (legacyValidate env o d (some dd)).1 = false ∧
      List.IsInfix "past".data (legacyValidate env o d (some dd)).2.data) ∧
    ((trimStr o).length = 3 → isValidAirportCode (trimStr o) = true →
      (trimStr d).length = 3 → isValidAirportCode (trimStr d) = true →
      trimStr o ≠ trimStr d →
      legacyValidate env o d (some env.todayDay) = (true, "")) := by
  constructor
  · intro h
    have h1 : ¬ (env.maxDay * msPerDay + env.nowTod < dd * msPerDay) := by
      simp only [msPerDay]
      omega
    have h2 : dd * msPerDay < env.todayDay * msPerDay := by
      simp only [msPerDay]
      omega
    rw [legacyValidate_some, if_neg h1, if_pos h2]
    exact ⟨rfl, by decide⟩
  · intro ho3 hoV hd3 hdV hne
    have h1 : ¬ (env.maxDay * msPerDay + env.nowTod <
        env.todayDay * msPerDay) := by
      simp only [msPerDay]
      omega
    have h2 : ¬ (env.todayDay * msPerDay < env.todayDay * msPerDay) := by
      omega
    rw [legacyValidate_some, if_neg h1, if_neg h2,
      airportStep_ok (trimStr o) (trimStr d) ho3 hoV hd3 hdV hne]

/-- C4 witness: at a concrete clock, yesterday is rejected and today is
accepted for valid distinct codes. -/
theorem C4_past_rejected_today_accepted_witness :
    (legacyValidate (ClockEnv.mk 100 0 465) "JFK" "LAX" (some 99)).1 = false ∧
    legacyValidate (ClockEnv.mk 100 0 465) "JFK" "LAX" (some 100) = (true, "") :=
  ⟨((C4_past_rejected_today_accepted (ClockEnv.mk 100 0 465) "JFK" "LAX" 99
      (by decide) (by decide)).1 (by decide)).1,
    (C4_past_rejected_today_accepted (ClockEnv.mk 100 0 465) "JFK" "LAX" 99
      (by decide) (by decide)).2 (by decide) (by decide) (by decide) (by decide)
      (by decide)⟩

/-- C5: a travel date strictly after today plus one calendar year is
rejected whatever the airport fields hold, with the too-far message (which
contains "more than 1 year"); a travel date exactly one calendar year ahead,
together with valid distinct codes, is accepted — the upper boundary is
inclusive, because the parsed date is midnight while the comparison bound
carries the current time of day. -/
theorem C5_max_rejected_boundary_accepted (env : ClockEnv) (o d : String)
    (dd : Nat) (htod : env.nowTod < msPerDay)
    (hmax : env.todayDay ≤ env.maxDay) :
    (env.maxDay < dd →
      (legacyValidate env o d (some dd)).1 = false ∧
      List.IsInfix "more than 1 year".data
        (legacyValidate env o d (some dd)).2.data) ∧
    ((trimStr o).length = 3 → isValidAirportCode (trimStr o) = true →
      (trimStr d).length = 3 → isValidAirportCode (trimStr d) = true →
      trimStr o ≠ trimStr d →
      legacyValidate env o d (some env.maxDay) = (true, "")) := by
  constructor
  · intro h
    have h1 : env.maxDay * msPerDay + env.nowTod < dd * msPerDay := by
      simp only [msPerDay] at htod ⊢
      omega
    rw [legacyValidate_some, if_pos h1]
    exact ⟨rfl, by decide⟩
  · intro ho3 hoV hd3 hdV hne
    have h1 : ¬ (env.maxDay * msPerDay + env.nowTod <
        env.maxDay * msPerDay) := by
      omega
    have h2 : ¬ (env.maxDay * msPerDay < env.todayDay * msPerDay) := by
      simp only [msPerDay]
      omega
    rw [legacyValidate_some, if_neg h1, if_neg h2,
      airportStep_ok (trimStr o) (trimStr d) ho3 hoV hd3 hdV hne]

/-- C5 witness: at a concrete clock, one day past the one-year mark is
rejected and the one-year mark itself is accepted for valid distinct codes. -/
theorem C5_max_rejected_boundary_accepted_witness :
    (legacyValidate (ClockEnv.mk 100 0 465) "JFK" "LAX" (some 466)).1 = false ∧
    legacyValidate (ClockEnv.mk 100 0 465) "JFK" "LAX" (some 465) = (true, "") :=
  ⟨((C5_max_rejected_boundary_accepted (ClockEnv.mk 100 0 465) "JFK" "LAX" 466
      (by decide) (by decide)).1 (by decide)).1,
    (C5_max_rejected_boundary_accepted (ClockEnv.mk 100 0 465) "JFK" "LAX" 466
      (by decide) (by decide)).2 (by decide) (by decide) (by decide) (by decide)
      (by decide)⟩

end FlightME
